import Mathlib

/-!
Shallow embedding of the SER-player core (ser_parser.py, image_processor.py,
frame_aligner.py, lucky_imaging.py, stacker.py) and verification of the
frozen claims about it.

Conventions of the embedding:
* machine integers are `Nat`/`Int`; the Python float values reaching the
  verified paths are small integral or dyadic numbers, embedded as `ℚ`
  (arithmetic on them is exact in both the source and the model);
* a raw file / header is a `List ℕ` of byte values;
* an image buffer is a flattened `List ℚ` of sample values;
* Python exceptions are `Except`; `None`-returning fallible helpers are
  `Option`;
* results of external library calls (OpenCV feature detection, matching and
  transform estimation; the ECC optimizer) enter as explicit parameters,
  while all control flow of the repository around them is embedded.
-/

namespace SerPlayer

/-! ## ser_parser.py -/

/-- Little-endian unsigned integer from a byte list, as
`struct.unpack('<I', ...)` / `('<Q', ...)`: byte 0 is least significant. -/
def uintLE (bytes : List ℕ) : ℕ :=
  bytes.foldr (fun b acc => b + 256 * acc) 0

/-- Big-endian unsigned integer from a byte list, as
`struct.unpack('>I', ...)` / `('>Q', ...)`: byte 0 is most significant. -/
def uintBE (bytes : List ℕ) : ℕ :=
  bytes.foldl (fun acc b => 256 * acc + b) 0

/-- `header_bytes[lo:hi]` on a byte list. -/
def slice (bytes : List ℕ) (lo hi : ℕ) : List ℕ :=
  (bytes.drop lo).take (hi - lo)

/-- `struct.unpack(f'{endian_char}...', ...)` where `endian_char` is `'<'`
when the header's little-endian field is 0 and `'>'` otherwise
(ser_parser.py line 109). -/
def readUint (littleEndianField : ℕ) (bytes : List ℕ) : ℕ :=
  if littleEndianField = 0 then uintLE bytes else uintBE bytes

/-- The integer fields of a parsed `SERHeader` (the free-text string fields
are omitted: no claim concerns them). -/
structure SERHeaderInts where
  lu_id : ℕ
  color_id : ℕ
  little_endian : ℕ
  image_width : ℕ
  image_height : ℕ
  pixel_depth : ℕ
  frame_count : ℕ
  datetime_utc : ℕ
  deriving Repr, DecidableEq

/-- The integer-field portion of `SERParser.parse_header`: the byte-order
field at offset 22 is read little-endian first, and every remaining integer
field is then read with the byte order it resolves
(ser_parser.py lines 107-118). -/
def parseHeaderInts (header_bytes : List ℕ) : SERHeaderInts :=
  let little_endian := uintLE (slice header_bytes 22 26)
  { lu_id := readUint little_endian (slice header_bytes 14 18)
    color_id := readUint little_endian (slice header_bytes 18 22)
    little_endian := little_endian
    image_width := readUint little_endian (slice header_bytes 26 30)
    image_height := readUint little_endian (slice header_bytes 30 34)
    pixel_depth := readUint little_endian (slice header_bytes 34 38)
    frame_count := readUint little_endian (slice header_bytes 38 42)
    datetime_utc := readUint little_endian (slice header_bytes 162 170) }

/-- `SERParser.HEADER_SIZE`. -/
def HEADER_SIZE : ℕ := 178

/-- `SERParser.calculate_frame_size` (ser_parser.py lines 184-189):
width × height × (pixel_depth // 8) × (3 when color_id is RGB/BGR, else 1). -/
def calculate_frame_size (image_width image_height pixel_depth color_id : ℕ) : ℕ :=
  let planes := if color_id = 100 ∨ color_id = 101 then 3 else 1
  let bytes_per_pixel := pixel_depth / 8
  image_width * image_height * bytes_per_pixel * planes

/-- The trailer check at the end of `SERParser.parse_header`
(ser_parser.py lines 159-166): `_has_timestamps` is set iff the file size is
exactly header size + frame data + 8 bytes per frame. -/
def hasTimestamps (file_size frame_count frame_size : ℕ) : Bool :=
  file_size = HEADER_SIZE + frame_count * frame_size + frame_count * 8

/-- The error kinds a single accessor call can raise (the
SERIndexError / SERIOError distinction of ser_parser.py). -/
inductive SERCallError where
  | indexError
  | ioError
  deriving Repr, DecidableEq

/-- `SERParser.get_frame` bounds handling (ser_parser.py lines 208-216): the
index is `ℤ` because a Python argument may be negative; an out-of-bounds
index raises `SERIndexError`, otherwise the read is issued at offset
`HEADER_SIZE + index * frame_size` (a successful read is represented by its
byte offset). -/
def get_frame (frame_count frame_size : ℕ) (frame_index : ℤ) :
    Except SERCallError ℕ :=
  if frame_index < 0 ∨ (frame_count : ℤ) ≤ frame_index then
    .error .indexError
  else
    .ok (HEADER_SIZE + frame_index.toNat * frame_size)

/-- `SERParser.get_timestamp` (ser_parser.py lines 270-289): when the file
has no timestamp trailer the call returns `None` before any bounds check;
only when timestamps are present does an out-of-bounds index raise
`SERIndexError`; otherwise the read is issued at the trailer offset. -/
def get_timestamp (has_ts : Bool) (frame_count frame_size : ℕ)
    (frame_index : ℤ) : Except SERCallError (Option ℕ) :=
  if has_ts = false then
    .ok none
  else if frame_index < 0 ∨ (frame_count : ℤ) ≤ frame_index then
    .error .indexError
  else
    .ok (some (HEADER_SIZE + frame_count * frame_size + frame_index.toNat * 8))

/-! ## image_processor.py -/

/-- Where `ImageProcessor.debayer` sends a raw 2-D frame
(image_processor.py lines 267-289). -/
inductive DebayerRoute where
  | cyymSolver (pattern : String)
  | opencvBayer (color_id : ℕ)
  | simpleBayer (pattern : String)
  | monoPath
  deriving Repr, DecidableEq

/-- The keys of `ImageProcessor.BAYER_PATTERNS` (the four standard Bayer
color ids, image_processor.py lines 71-76). -/
def BAYER_PATTERN_IDS : List ℕ := [1, 2, 3, 4]

/-- `ImageProcessor.debayer` (image_processor.py lines 256-289): color id 8
(`COLOR_BAYER_CYYM`) goes to `debayer_cyym` with the user-configured
`CYYM_PATTERN`; the four standard Bayer ids go to OpenCV when available and
to `debayer_simple` otherwise; everything else falls through to
`mono_to_rgb`. `hasOpenCV` models the import-time `HAS_OPENCV` flag and
`cyymPattern` the mutable class attribute `CYYM_PATTERN`. -/
def debayerRoute (hasOpenCV : Bool) (cyymPattern : String) (color_id : ℕ) :
    DebayerRoute :=
  if color_id = 8 then .cyymSolver cyymPattern
  else if hasOpenCV = true ∧ color_id ∈ BAYER_PATTERN_IDS then
    .opencvBayer color_id
  else if color_id = 1 then .simpleBayer "RGGB"
  else if color_id = 2 then .simpleBayer "GRBG"
  else if color_id = 3 then .simpleBayer "GBRG"
  else if color_id = 4 then .simpleBayer "BGGR"
  else .monoPath

/-- Where `ImageProcessor.process_frame` sends a frame
(image_processor.py lines 309-337). -/
inductive ProcessRoute where
  | monoToRgb
  | debayer (r : DebayerRoute)
  | rgbPassthrough
  | bgrToRgb
  | unknownMono
  | unknownPassthrough
  deriving Repr, DecidableEq

/-- The dispatch of `ImageProcessor.process_frame` after bit-depth
normalization (image_processor.py lines 309-337); `is2d` tells whether the
raw data has a 2-D shape, which the final else-branch inspects. -/
def process_frame_route (hasOpenCV : Bool) (cyymPattern : String)
    (is2d : Bool) (color_id : ℕ) : ProcessRoute :=
  if color_id = 0 then .monoToRgb
  else if color_id ∈ [1, 2, 3, 4, 8, 9, 16, 17] then
    .debayer (debayerRoute hasOpenCV cyymPattern color_id)
  else if color_id = 100 then .rgbPassthrough
  else if color_id = 101 then .bgrToRgb
  else if is2d = true then .unknownMono
  else .unknownPassthrough

/-- `np.clip(x, 0, 255)` on a scalar. -/
def clip255 (x : ℚ) : ℚ := min (max x 0) 255

/-- A reconstructed color triple. -/
structure RGB where
  r : ℚ
  g : ℚ
  b : ℚ
  deriving Repr, DecidableEq

/-- `ImageProcessor.debayer_cyym` on one 2×2 block `[p00 p01; p10 p11]`
(image_processor.py lines 187-242): extract the cyan, two yellow and magenta
readings according to the pattern, average the yellows, solve
`Cy = G + B`, `Y = R + G`, `Mg = R + B` as `R = (Y + Mg - Cy) / 2`,
`G = (Y + Cy - Mg) / 2`, `B = (Cy + Mg - Y) / 2`, then clip to [0, 255].
An unrecognized pattern defaults to the CYYM extraction, as in the source. -/
def debayer_cyym_block (pattern : String) (p00 p01 p10 p11 : ℚ) : RGB :=
  let e :=
    if pattern = "CYYM" then (p00, p01, p10, p11)
    else if pattern = "YCMY" then (p01, p00, p11, p10)
    else if pattern = "YMCY" then (p10, p00, p11, p01)
    else if pattern = "MYYC" then (p11, p01, p10, p00)
    else (p00, p01, p10, p11)
  let cy := e.1
  let y1 := e.2.1
  let y2 := e.2.2.1
  let mg := e.2.2.2
  let y_avg := (y1 + y2) / 2
  { r := clip255 ((y_avg + mg - cy) / 2)
    g := clip255 ((y_avg + cy - mg) / 2)
    b := clip255 ((cy + mg - y_avg) / 2) }

/-- Build the 2×2 sensor block a scene with per-block color values R, G, B
would produce under a given pattern, composing `Cy = G + B`, `Y = R + G`,
`Mg = R + B` at the positions the pattern assigns them (the synthetic
composition the spec's §8 test describes, laid out per the pattern table of
image_processor.py lines 169-173). -/
def cyym_compose_block (pattern : String) (r g b : ℚ) : ℚ × ℚ × ℚ × ℚ :=
  let cy := g + b
  let y := r + g
  let mg := r + b
  if pattern = "CYYM" then (cy, y, y, mg)
  else if pattern = "YCMY" then (y, cy, mg, y)
  else if pattern = "YMCY" then (y, mg, cy, y)
  else (mg, y, y, cy)

/-- Round-trip of one block: compose the sensor readings from R, G, B under
a pattern, then run `debayer_cyym_block` on them with the same pattern. -/
def cyym_roundtrip (pattern : String) (r g b : ℚ) : RGB :=
  let p := cyym_compose_block pattern r g b
  debayer_cyym_block pattern p.1 p.2.1 p.2.2.1 p.2.2.2

/-! ## frame_aligner.py / lucky_imaging.py -/

/-- A 2×3 affine estimate as returned by `cv2.estimateAffinePartial2D`;
`tx`, `ty` are the translation entries `M[0, 2]`, `M[1, 2]`. -/
structure AffineEstimate where
  a00 : ℚ
  a01 : ℚ
  a10 : ℚ
  a11 : ℚ
  tx : ℚ
  ty : ℚ
  deriving Repr, DecidableEq

/-- Lowe-ratio filtering of knn match pairs
(frame_aligner.py lines 109-114 / lucky_imaging.py lines 182-187): a pair
of candidate distances `[d1, d2]` survives when it really has two entries
and `d1 < ratio * d2`; the result is the number of surviving matchPairs. -/
def goodMatchCount (ratio : ℚ) (matchPairs : List (List ℚ)) : ℕ :=
  (matchPairs.filter (fun mp =>
    if mp.length = 2 ∧ mp.getD 0 0 < ratio * mp.getD 1 0 then true
    else false)).length

/-- `FrameAligner.align_frame_orb` decision pipeline
(frame_aligner.py lines 96-146): fail when either descriptor set is absent
or either image has fewer than 10 keypoints; fail when fewer than 10 matchPairs
survive the 0.75 ratio test; fail when estimation returns no transform; fail
when either translation component of the estimate exceeds `max_shift` in
absolute value; otherwise succeed with the estimated transform (standing for
the warped frame it is applied to). The detection, matching and estimation
results are parameters abstracting the cv2 calls. -/
def align_frame_orb (kp1 kp2 : ℕ) (des1 des2 : Bool)
    (matchPairs : List (List ℚ)) (estimate : Option AffineEstimate)
    (max_shift : ℚ) : Option AffineEstimate :=
  if des1 = false ∨ des2 = false ∨ kp1 < 10 ∨ kp2 < 10 then none
  else if goodMatchCount (3 / 4) matchPairs < 10 then none
  else
    match estimate with
    | none => none
    | some M =>
      if max_shift < |M.tx| ∨ max_shift < |M.ty| then none
      else some M

/-- `LuckyImaging.align_frame_features` decision pipeline
(lucky_imaging.py lines 160-212): same structure as `align_frame_orb` but
with the 0.7 ratio and, notably, no check on the estimated translation —
any returned transform is applied. -/
def align_frame_features (kp1 kp2 : ℕ) (des1 des2 : Bool)
    (matchPairs : List (List ℚ)) (estimate : Option AffineEstimate) :
    Option AffineEstimate :=
  if des1 = false ∨ des2 = false ∨ kp1 < 10 ∨ kp2 < 10 then none
  else if goodMatchCount (7 / 10) matchPairs < 10 then none
  else
    match estimate with
    | none => none
    | some M => some M

/-! ## stacker.py -/

/-- One of the three combination rules of `FrameStacker.stack_frames`. -/
inductive StackMethod where
  | average
  | median
  | sum
  deriving Repr, DecidableEq

/-- A flattened image buffer. -/
abbrev Image := List ℚ

/-- `accumulator += frame` on same-shape buffers. -/
def addImages (a b : Image) : Image := a.zipWith (· + ·) b

/-- Insertion into a sorted rational list (helper for sorting). -/
def insQ (x : ℚ) : List ℚ → List ℚ
  | [] => [x]
  | y :: ys => if x ≤ y then x :: y :: ys else y :: insQ x ys

/-- Insertion sort on rationals (the sort underlying `np.percentile` /
`np.median`; only the sorted value sequence matters). -/
def sortQ : List ℚ → List ℚ
  | [] => []
  | x :: xs => insQ x (sortQ xs)

/-- `np.percentile(data, p)` with the default linear interpolation: with the
data sorted and `idx = (n - 1) * p / 100`, the result is
`sorted[⌊idx⌋] + (idx - ⌊idx⌋) * (sorted[⌊idx⌋ + 1] - sorted[⌊idx⌋])`. -/
def np_percentile (data : List ℚ) (p : ℚ) : ℚ :=
  let sorted := sortQ data
  let n := sorted.length
  let idx : ℚ := ((n : ℚ) - 1) * p / 100
  let lo := (⌊idx⌋).toNat
  let frac := idx - ⌊idx⌋
  let a := sorted.getD lo 0
  let b := sorted.getD (lo + 1) a
  a + frac * (b - a)

/-- `np.median(data)`: middle element of the sorted data for odd length,
mean of the two middle elements for even length. -/
def np_median (data : List ℚ) : ℚ :=
  let sorted := sortQ data
  let n := sorted.length
  if n % 2 = 1 then sorted.getD (n / 2) 0
  else (sorted.getD (n / 2 - 1) 0 + sorted.getD (n / 2) 0) / 2

/-- `astype(np.uint8)` on a nonnegative float value: truncate, wrap mod 256
(all values cast on the verified paths are nonnegative, where C truncation
coincides with the floor). -/
def toUint8 (x : ℚ) : ℕ := (⌊x⌋).toNat % 256

/-- `FrameStacker._auto_stretch` for a uint8 target (stacker.py lines
18-44): compute the 0.1 and 99.9 percentiles; when their span is below 1e-10
pass the data through unscaled (just the dtype cast); otherwise rescale the
span to [0, 1], clip, scale by the dtype maximum 255 and cast. -/
def auto_stretch (data : Image) : List ℕ :=
  let low := np_percentile data (1 / 10)
  let high := np_percentile data (999 / 10)
  if high - low < 1 / 10000000000 then data.map toUint8
  else
    data.map (fun x =>
      toUint8 (min (max ((x - low) / (high - low)) 0) 1 * 255))

/-- The cancellation condition a progress callback can signal. In the
repository the callback cancels by raising (gui/main_window.py lines
1011-1014 raise from inside the callback) and `stack_frames` has no handler,
so the exception propagates and aborts the stack; a raising callback is
embedded as one returning `Except.error`. -/
inductive CancelSignal where
  | cancelled
  deriving Repr, DecidableEq

/-- `progress_callback(current, total)`: either returns normally or raises a
cancellation. -/
abbrev ProgressCallback := ℕ → ℕ → Except CancelSignal Unit

/-- The per-frame loop shared by the three no-alignment branches of
`FrameStacker.stack_frames` (stacker.py lines 149-207): for each frame, fold
it into the accumulator state, then invoke the progress callback with
`(i + 1, total)`; a raising callback aborts the loop immediately. -/
def processLoop {σ : Type} (step : σ → Image → σ) (cb : ProgressCallback)
    (total : ℕ) : List Image → ℕ → σ → Except CancelSignal σ
  | [], _, acc => .ok acc
  | f :: fs, i, acc =>
    let acc' := step acc f
    match cb (i + 1) total with
    | .error e => .error e
    | .ok _ => processLoop step cb total fs (i + 1) acc'

/-- Per-pixel column across a list of frames (`axis=0` access). -/
def pixelColumn (fs : List Image) (i : ℕ) : List ℚ :=
  fs.map (fun f => f.getD i 0)

/-- `np.median(frames, axis=0)` over `npix`-pixel frames. -/
def medianImage (fs : List Image) (npix : ℕ) : Image :=
  (List.range npix).map (fun i => np_median (pixelColumn fs i))

/-- Folding a list of frames into a zero accumulator
(`accumulator = np.zeros_like(...)` then `accumulator += frame`). -/
def sumImages (fs : List Image) (npix : ℕ) : Image :=
  fs.foldl addImages (List.replicate npix 0)

/-- The no-alignment paths of `FrameStacker.stack_frames`
(stacker.py lines 148-218) over frames of uniform pixel count: median
collects every frame then takes the pointwise median, sum accumulates and
always auto-stretches, average accumulates, divides by the frame count and
auto-stretches when requested; each loop checkpoints the progress callback
after every frame, and a callback that raises aborts the whole call with the
cancellation it signalled, producing no composite. -/
def stack_frames_noalign (method : StackMethod) (frames : List Image)
    (cb : ProgressCallback) (auto_stretch_flag : Bool) :
    Except CancelSignal (List ℕ) :=
  let frame_count := frames.length
  let npix := (frames.headD []).length
  match method with
  | .median =>
    match processLoop (fun acc f => acc ++ [f]) cb frame_count frames 0 [] with
    | .error e => .error e
    | .ok fs =>
      let stacked_float := medianImage fs npix
      .ok (if auto_stretch_flag then auto_stretch stacked_float
           else stacked_float.map toUint8)
  | .sum =>
    match processLoop addImages cb frame_count frames 0
        (List.replicate npix 0) with
    | .error e => .error e
    | .ok acc => .ok (auto_stretch acc)
  | .average =>
    match processLoop addImages cb frame_count frames 0
        (List.replicate npix 0) with
    | .error e => .error e
    | .ok acc =>
      let averaged := acc.map (· / (frame_count : ℚ))
      .ok (if auto_stretch_flag then auto_stretch averaged
           else averaged.map toUint8)

/-- The per-frame alignment attempt of the aligned path
(stacker.py lines 101-106): ECC first, ORB as fallback when ECC returns
`None`. The two strategies are parameters abstracting the cv2-driven
`align_frame_ecc` / `align_frame_orb` calls on this reference. -/
def alignOrFallback (ecc orb : Image → Option Image) (f : Image) :
    Option Image :=
  match ecc f with
  | some a => some a
  | none => orb f

/-- The list `aligned_frames` built by the aligned path of
`FrameStacker.stack_frames` (stacker.py lines 86-124): frame 0 is appended
as the reference unconditionally; each later frame is kept only when
alignment succeeds and its quality score `q` reaches the threshold. -/
def keptFrames (ecc orb : Image → Option Image) (q : Image → ℚ)
    (threshold : ℚ) (reference : Image) (rest : List Image) : List Image :=
  reference :: rest.filterMap (fun f =>
    match alignOrFallback ecc orb f with
    | none => none
    | some a => if threshold ≤ q a then some a else none)

/-- `used_frames = len(aligned_frames)` (stacker.py line 124). -/
def used_frames (ecc orb : Image → Option Image) (q : Image → ℚ)
    (threshold : ℚ) (reference : Image) (rest : List Image) : ℕ :=
  (keptFrames ecc orb q threshold reference rest).length

/-- The aligned path of `FrameStacker.stack_frames`
(stacker.py lines 84-146): build `aligned_frames`, then combine by the
chosen method — median of the kept frames, sum with mandatory stretch, or
sum divided by the used count — returning only the composite buffer. -/
def stack_frames_aligned (ecc orb : Image → Option Image) (q : Image → ℚ)
    (threshold : ℚ) (method : StackMethod) (reference : Image)
    (rest : List Image) (auto_stretch_flag : Bool) : List ℕ :=
  let kept := keptFrames ecc orb q threshold reference rest
  let used := kept.length
  let npix := reference.length
  match method with
  | .median =>
    let m := medianImage kept npix
    if auto_stretch_flag then auto_stretch m else m.map toUint8
  | .sum => auto_stretch (sumImages kept npix)
  | .average =>
    let averaged := (sumImages kept npix).map (· / (used : ℚ))
    if auto_stretch_flag then auto_stretch averaged
    else averaged.map toUint8

/-- Concrete frames of the spec's §8 end-to-end scenario: five mono 8-bit
4×4 frames of constant values 10, 20, 30, 40, 50. -/
def scenarioFrames : List Image :=
  [List.replicate 16 (10 : ℚ), List.replicate 16 (20 : ℚ),
   List.replicate 16 (30 : ℚ), List.replicate 16 (40 : ℚ),
   List.replicate 16 (50 : ℚ)]

/-- A progress callback that never cancels. -/
def cbOk : ProgressCallback := fun _ _ => .ok ()

/-- A progress callback that cancels at the very first checkpoint. -/
def cbCancelNow : ProgressCallback := fun _ _ => .error .cancelled

end SerPlayer

namespace SerPlayer

/-! ## Helper lemmas -/

theorem clip255_of_bounds {x : ℚ} (h0 : 0 ≤ x) (h255 : x ≤ 255) :
    clip255 x = x := by
  simp [clip255, max_eq_left h0, min_eq_left h255]

theorem processLoop_ok {σ : Type} (step : σ → Image → σ)
    (cb : ProgressCallback) (total : ℕ) (fs : List Image) (i : ℕ) (acc : σ)
    (h : ∀ j, j < fs.length → cb (i + j + 1) total = .ok ()) :
    ∃ out, processLoop step cb total fs i acc = .ok out := by
  induction fs generalizing i acc with
  | nil => exact ⟨acc, rfl⟩
  | cons f fs ih =>
    have h0 : cb (i + 1) total = .ok () := h 0 (by simp)
    simp only [processLoop, h0]
    exact ih (i + 1) (step acc f) (fun j hj => by
      have := h (j + 1) (by simpa using Nat.succ_lt_succ hj)
      rwa [show i + (j + 1) + 1 = i + 1 + j + 1 by ring] at this)

theorem processLoop_cancel {σ : Type} (step : σ → Image → σ)
    (cb : ProgressCallback) (total : ℕ) (fs : List Image) (i : ℕ) (acc : σ)
    (k : ℕ) (e : CancelSignal) (hk : k < fs.length)
    (hok : ∀ j, j < k → cb (i + j + 1) total = .ok ())
    (hc : cb (i + k + 1) total = .error e) :
    processLoop step cb total fs i acc = .error e := by
  induction fs generalizing i acc k with
  | nil => simp at hk
  | cons f fs ih =>
    cases k with
    | zero => simp only [processLoop]; rw [hc]
    | succ k' =>
      have h0 : cb (i + 1) total = .ok () := hok 0 (Nat.succ_pos _)
      simp only [processLoop, h0]
      exact ih (i + 1) (step acc f) k' (Nat.lt_of_succ_lt_succ hk)
        (fun j hj => by
          have := hok (j + 1) (Nat.succ_lt_succ hj)
          rwa [show i + (j + 1) + 1 = i + 1 + j + 1 by ring] at this)
        (by rwa [show i + 1 + k' + 1 = i + (k' + 1) + 1 by ring])

/-! ## Claims -/

/-- C4: for every successfully opened container with frame count `n` and
per-frame byte size `s`, `has_timestamps()` is true iff the file size equals
exactly `178 + n*s + n*8`; any other size, including a difference of a
single byte either way, yields false. -/
theorem C4_timestamp_trailer (file_size n s : ℕ) :
    (hasTimestamps file_size n s = true ↔ file_size = 178 + n * s + n * 8)
    ∧ hasTimestamps (178 + n * s + n * 8 + 1) n s = false
    ∧ hasTimestamps (177 + n * s + n * 8) n s = false := by
  refine ⟨?_, ?_, ?_⟩ <;>
    simp [hasTimestamps, HEADER_SIZE, decide_eq_true_eq]

/-- C5: when the byte-order field at offset 22 (always read little-endian)
holds 0, every remaining integer header field is interpreted little-endian,
and when it holds 1, every remaining integer field is interpreted
big-endian. -/
theorem C5_byte_order (header_bytes : List ℕ) :
    (uintLE (slice header_bytes 22 26) = 0 →
      parseHeaderInts header_bytes =
        { lu_id := uintLE (slice header_bytes 14 18)
          color_id := uintLE (slice header_bytes 18 22)
          little_endian := 0
          image_width := uintLE (slice header_bytes 26 30)
          image_height := uintLE (slice header_bytes 30 34)
          pixel_depth := uintLE (slice header_bytes 34 38)
          frame_count := uintLE (slice header_bytes 38 42)
          datetime_utc := uintLE (slice header_bytes 162 170) })
    ∧ (uintLE (slice header_bytes 22 26) = 1 →
      parseHeaderInts header_bytes =
        { lu_id := uintBE (slice header_bytes 14 18)
          color_id := uintBE (slice header_bytes 18 22)
          little_endian := 1
          image_width := uintBE (slice header_bytes 26 30)
          image_height := uintBE (slice header_bytes 30 34)
          pixel_depth := uintBE (slice header_bytes 34 38)
          frame_count := uintBE (slice header_bytes 38 42)
          datetime_utc := uintBE (slice header_bytes 162 170) }) := by
  constructor <;> intro h <;> simp [parseHeaderInts, readUint, h]

/-- Witness for C5: the all-zero 178-byte header has byte-order field 0 and
parses little-endian; the header whose byte at offset 22 is 1 has byte-order
field 1 and parses big-endian. -/
theorem C5_byte_order_witness :
    (uintLE (slice (List.replicate 178 0) 22 26) = 0
      ∧ parseHeaderInts (List.replicate 178 0) =
          { lu_id := uintLE (slice (List.replicate 178 0) 14 18)
            color_id := uintLE (slice (List.replicate 178 0) 18 22)
            little_endian := 0
            image_width := uintLE (slice (List.replicate 178 0) 26 30)
            image_height := uintLE (slice (List.replicate 178 0) 30 34)
            pixel_depth := uintLE (slice (List.replicate 178 0) 34 38)
            frame_count := uintLE (slice (List.replicate 178 0) 38 42)
            datetime_utc := uintLE (slice (List.replicate 178 0) 162 170) })
    ∧ (uintLE (slice (List.replicate 22 0 ++ 1 :: List.replicate 155 0) 22 26) = 1
      ∧ parseHeaderInts (List.replicate 22 0 ++ 1 :: List.replicate 155 0) =
          { lu_id := uintBE (slice (List.replicate 22 0 ++ 1 :: List.replicate 155 0) 14 18)
            color_id := uintBE (slice (List.replicate 22 0 ++ 1 :: List.replicate 155 0) 18 22)
            little_endian := 1
            image_width := uintBE (slice (List.replicate 22 0 ++ 1 :: List.replicate 155 0) 26 30)
            image_height := uintBE (slice (List.replicate 22 0 ++ 1 :: List.replicate 155 0) 30 34)
            pixel_depth := uintBE (slice (List.replicate 22 0 ++ 1 :: List.replicate 155 0) 34 38)
            frame_count := uintBE (slice (List.replicate 22 0 ++ 1 :: List.replicate 155 0) 38 42)
            datetime_utc := uintBE (slice (List.replicate 22 0 ++ 1 :: List.replicate 155 0) 162 170) }) :=
  ⟨⟨by decide, (C5_byte_order (List.replicate 178 0)).1 (by decide)⟩,
   ⟨by decide, (C5_byte_order (List.replicate 22 0 ++ 1 :: List.replicate 155 0)).2 (by decide)⟩⟩

/-- C9 counterexample: on a container without a timestamp trailer
(5 frames of 16 bytes), the out-of-range index 5 makes `get_timestamp`
return `None` rather than raise an index error, while `get_frame` does raise
one — so the two accessors do not both raise. -/
theorem C9_counterexample :
    get_timestamp false 5 16 5 = .ok none
    ∧ get_timestamp false 5 16 5 ≠ .error .indexError
    ∧ get_frame 5 16 5 = .error .indexError := by
  refine ⟨rfl, ?_, by simp [get_frame]⟩
  simp [get_timestamp]

/-- C9 amended: `get_frame` raises an index error for every index outside
[0, frame_count); `get_timestamp` does so only when the container has a
timestamp trailer, and returns `None` for every index (in range or not)
when it does not. -/
theorem C9_amended_index_errors (frame_count frame_size : ℕ) (idx : ℤ)
    (h : idx < 0 ∨ (frame_count : ℤ) ≤ idx) :
    get_frame frame_count frame_size idx = .error .indexError
    ∧ get_timestamp true frame_count frame_size idx = .error .indexError
    ∧ get_timestamp false frame_count frame_size idx = .ok none := by
  refine ⟨?_, ?_, rfl⟩ <;> simp [get_frame, get_timestamp, h]

/-- Witness for C9 amended: at frame count 5, frame size 16 and index 5. -/
theorem C9_amended_index_errors_witness :
    get_frame 5 16 5 = .error .indexError
    ∧ get_timestamp true 5 16 5 = .error .indexError
    ∧ get_timestamp false 5 16 5 = .ok none :=
  C9_amended_index_errors 5 16 5 (by norm_num)

/-- C1 counterexample: with OpenCV available and the configured orientation
at its default "CYYM", a raw 2-D frame with color id 9 (`COLOR_BAYER_YCMY`)
is routed by `process_frame` / `debayer` to the mono path, not to the CYYM
linear-system solver; ids 16 and 17 behave the same. -/
theorem C1_counterexample :
    process_frame_route true "CYYM" true 9 = .debayer .monoPath
    ∧ process_frame_route true "CYYM" true 16 = .debayer .monoPath
    ∧ process_frame_route true "CYYM" true 17 = .debayer .monoPath
    ∧ ProcessRoute.debayer DebayerRoute.monoPath
        ≠ ProcessRoute.debayer (.cyymSolver "CYYM") := by
  refine ⟨by decide, by decide, by decide, by decide⟩

/-- C1 amended: only `COLOR_BAYER_CYYM = 8` is converted via the CYYM
linear-system solver with the configured orientation; the other three family
identifiers YCMY = 9, YMCY = 16 and MYYC = 17 degrade to the mono path,
whether or not OpenCV is available and whatever orientation is
configured. -/
theorem C1_amended_cyym_routing (hasOpenCV is2d : Bool) (pat : String) :
    process_frame_route hasOpenCV pat is2d 8 = .debayer (.cyymSolver pat)
    ∧ process_frame_route hasOpenCV pat is2d 9 = .debayer .monoPath
    ∧ process_frame_route hasOpenCV pat is2d 16 = .debayer .monoPath
    ∧ process_frame_route hasOpenCV pat is2d 17 = .debayer .monoPath := by
  cases hasOpenCV <;>
    simp [process_frame_route, debayerRoute, BAYER_PATTERN_IDS]

end SerPlayer

namespace SerPlayer

/-- C6: for per-block color values R, G, B in the valid sample range
[0, 255], composing `Cy = G + B`, `Y = R + G`, `Mg = R + B` at the positions
of any of the four orientation selections and then applying the inversion of
`debayer_cyym` (average the yellows, solve for R, G, B, clip) recovers the
original values exactly (hence within any rounding tolerance). -/
theorem C6_cyym_algebra (pattern : String)
    (hp : pattern ∈ ["CYYM", "YCMY", "YMCY", "MYYC"]) (r g b : ℚ)
    (hr0 : 0 ≤ r) (hr1 : r ≤ 255) (hg0 : 0 ≤ g) (hg1 : g ≤ 255)
    (hb0 : 0 ≤ b) (hb1 : b ≤ 255) :
    cyym_roundtrip pattern r g b = ⟨r, g, b⟩ := by
  have er : ∀ x : ℚ, x = r → clip255 x = r := fun x hx => by
    rw [hx, clip255_of_bounds hr0 hr1]
  have eg : ∀ x : ℚ, x = g → clip255 x = g := fun x hx => by
    rw [hx, clip255_of_bounds hg0 hg1]
  have eb : ∀ x : ℚ, x = b → clip255 x = b := fun x hx => by
    rw [hx, clip255_of_bounds hb0 hb1]
  simp only [List.mem_cons, List.not_mem_nil, or_false] at hp
  rcases hp with rfl | rfl | rfl | rfl <;>
    · simp only [cyym_roundtrip, cyym_compose_block, debayer_cyym_block,
        RGB.mk.injEq]
      simp
      refine ⟨er _ (by ring), eg _ (by ring), eb _ (by ring)⟩

/-- Witness for C6: orientation "YCMY" with R = 10, G = 20, B = 3. -/
theorem C6_cyym_algebra_witness :
    cyym_roundtrip "YCMY" 10 20 3 = ⟨10, 20, 3⟩ :=
  C6_cyym_algebra "YCMY" (by norm_num) 10 20 3 (by norm_num) (by norm_num)
    (by norm_num) (by norm_num) (by norm_num) (by norm_num)

/-- C7 counterexample: with ten keypoints on each side and ten match pairs
surviving the ratio test, the lucky-imaging feature strategy accepts an
estimated transform of translation (1000, 0), whose magnitude exceeds every
configured maximum shift (100-200 px), instead of failing; and the stacking
strategy accepts a transform of translation (150, 150), whose magnitude also
exceeds its configured maximum shift of 200 px (the source checks each axis
separately). -/
theorem C7_counterexample :
    (200 : ℚ) ^ 2 < 1000 ^ 2 + 0 ^ 2
    ∧ align_frame_features 10 10 true true (List.replicate 10 [1, 2])
        (some ⟨1, 0, 0, 1, 1000, 0⟩) = some ⟨1, 0, 0, 1, 1000, 0⟩
    ∧ (200 : ℚ) ^ 2 < 150 ^ 2 + 150 ^ 2
    ∧ align_frame_orb 10 10 true true (List.replicate 10 [1, 2])
        (some ⟨1, 0, 0, 1, 150, 150⟩) 200 = some ⟨1, 0, 0, 1, 150, 150⟩ := by
  refine ⟨by norm_num, ?_, by norm_num, ?_⟩ <;>
    · norm_num [align_frame_features, align_frame_orb, goodMatchCount,
        List.replicate]

/-- C7 amended: in the stacking path, `align_frame_orb` returns an alignment
failure whenever either translation component of the estimated transform
exceeds `max_shift` in absolute value (a per-axis bound, not a magnitude
bound); the lucky-imaging path `align_frame_features` applies no translation
bound at all (as the counterexample shows). -/
theorem C7_amended_shift_check (kp1 kp2 : ℕ) (des1 des2 : Bool)
    (mps : List (List ℚ)) (M : AffineEstimate) (max_shift : ℚ)
    (h : max_shift < |M.tx| ∨ max_shift < |M.ty|) :
    align_frame_orb kp1 kp2 des1 des2 mps (some M) max_shift = none := by
  simp only [align_frame_orb]
  split_ifs with h1 h2 <;> simp [h]

/-- Witness for C7 amended: a transform with translation (300, 0) is
rejected at max shift 200. -/
theorem C7_amended_shift_check_witness :
    align_frame_orb 10 10 true true (List.replicate 10 [(1 : ℚ), 2])
      (some ⟨1, 0, 0, 1, 300, 0⟩) 200 = none :=
  C7_amended_shift_check 10 10 true true (List.replicate 10 [(1 : ℚ), 2])
    ⟨1, 0, 0, 1, 300, 0⟩ 200 (by norm_num)

end SerPlayer

namespace SerPlayer

/-- C2: for every stacking run (any method, any frame list), the progress
callback is consulted after each processed frame: a callback that never
cancels lets the run complete with a composite, while a callback that first
signals cancellation at the checkpoint following frame k (for any k within
the run) aborts the whole operation, which reports the cancellation
condition instead of producing any composite. -/
theorem C2_progress_cancellation (method : StackMethod) (frames : List Image)
    (cb : ProgressCallback) (flag : Bool) :
    ((∀ i, i < frames.length → cb (i + 1) frames.length = .ok ()) →
      ∃ img, stack_frames_noalign method frames cb flag = .ok img)
    ∧ (∀ k e, k < frames.length →
        (∀ j, j < k → cb (j + 1) frames.length = .ok ()) →
        cb (k + 1) frames.length = .error e →
        stack_frames_noalign method frames cb flag = .error e) := by
  constructor
  · intro h
    cases method <;>
      · simp only [stack_frames_noalign]
        obtain ⟨out, hout⟩ := processLoop_ok _ cb frames.length frames 0 _
          (fun j hj => by simpa using h j hj)
        rw [hout]
        exact ⟨_, rfl⟩
  · intro k e hk hok hc
    cases method <;>
      · simp only [stack_frames_noalign]
        rw [processLoop_cancel _ cb frames.length frames 0 _ k e hk
          (fun j hj => by simpa using hok j hj) (by simpa using hc)]

/-- Witness for C2: on the five-frame scenario, the never-cancelling
callback yields a composite and the cancel-at-first-checkpoint callback
aborts with the cancellation condition. -/
theorem C2_progress_cancellation_witness :
    (∃ img, stack_frames_noalign .average scenarioFrames cbOk true = .ok img)
    ∧ stack_frames_noalign .average scenarioFrames cbCancelNow true =
        .error .cancelled :=
  ⟨(C2_progress_cancellation .average scenarioFrames cbOk true).1
      (fun _ _ => rfl),
   (C2_progress_cancellation .average scenarioFrames cbCancelNow true).2
      0 .cancelled (by norm_num [scenarioFrames])
      (fun j hj => absurd hj (Nat.not_lt_zero j)) rfl⟩

/-- C8 counterexample: on the container of 5 mono 8-bit 4×4 frames of
constant values 10, 20, 30, 40, 50, the `sum` method (with its mandatory
stretch) produces the uniform value 150 — the raw sum passed through
unscaled by the degenerate-range guard — and not the maximal output value
255 the claim asserts. -/
theorem C8_counterexample :
    stack_frames_noalign .sum scenarioFrames cbOk true =
      .ok (List.replicate 16 150)
    ∧ (150 : ℕ) ≠ 255 := by
  refine ⟨?_, by decide⟩
  norm_num [stack_frames_noalign, scenarioFrames, cbOk, processLoop,
    addImages, List.replicate, auto_stretch, np_percentile, sortQ, insQ,
    toUint8]
  simp

/-- C8 amended: on the 5-frame scenario, `average` yields a uniform 30 and
`median` yields a uniform 30 (the degenerate-range auto-stretch passing the
data through), while `sum` with its mandatory stretch yields a uniform 150:
every pixel ties, the percentile span is degenerate, and the raw sum 150 is
passed through unscaled rather than being mapped to the maximal output
value. -/
theorem C8_amended_scenario :
    stack_frames_noalign .average scenarioFrames cbOk true =
      .ok (List.replicate 16 30)
    ∧ stack_frames_noalign .median scenarioFrames cbOk true =
      .ok (List.replicate 16 30)
    ∧ stack_frames_noalign .sum scenarioFrames cbOk true =
      .ok (List.replicate 16 150) := by
  refine ⟨?_, ?_, ?_⟩ <;>
    · norm_num [stack_frames_noalign, scenarioFrames, cbOk, processLoop,
        addImages, List.replicate, auto_stretch, np_percentile, sortQ, insQ,
        toUint8, medianImage, pixelColumn, np_median, List.range,
        List.range.loop]
      simp

end SerPlayer

namespace SerPlayer

/-- C3 counterexample: two aligned stacking runs on a one-extra-frame
container in which different numbers of frames are actually incorporated
(2 when alignment of the extra frame succeeds, 1 when it fails) return
identical values — the returned result is the composite array alone and
cannot contain the count of frames used. -/
theorem C3_counterexample :
    stack_frames_aligned (fun f => some f) (fun _ => none) (fun _ => 1) 0
        .average (List.replicate 16 (30 : ℚ)) [List.replicate 16 (30 : ℚ)]
        true
      = stack_frames_aligned (fun _ => none) (fun _ => none) (fun _ => 1) 0
        .average (List.replicate 16 (30 : ℚ)) [List.replicate 16 (30 : ℚ)]
        true
    ∧ used_frames (fun f => some f) (fun _ => none) (fun _ => 1) 0
        (List.replicate 16 (30 : ℚ)) [List.replicate 16 (30 : ℚ)] = 2
    ∧ used_frames (fun _ => none) (fun _ => none) (fun _ => 1) 0
        (List.replicate 16 (30 : ℚ)) [List.replicate 16 (30 : ℚ)] = 1 := by
  refine ⟨?_, ?_, ?_⟩ <;>
    norm_num [stack_frames_aligned, used_frames, keptFrames,
      alignOrFallback, sumImages, addImages, List.replicate, auto_stretch,
      np_percentile, sortQ, insQ, toUint8]

/-- C3 amended: on a completed aligned stack, the returned value is the
composite alone — it is a function of the kept-frame list only, so any two
runs keeping the same frames return the same value — while the count of
frames actually incorporated (1 for the reference plus every later frame
accepted by alignment and the quality threshold, at most the input frame
count) is tracked and logged but not part of the return value. -/
theorem C3_amended_composite_only (ecc orb : Image → Option Image)
    (q : Image → ℚ) (t : ℚ) (method : StackMethod) (reference : Image)
    (rest : List Image) (flag : Bool) :
    used_frames ecc orb q t reference rest ≤ rest.length + 1
    ∧ 1 ≤ used_frames ecc orb q t reference rest
    ∧ ∀ (ecc' orb' : Image → Option Image) (q' : Image → ℚ) (t' : ℚ)
        (rest' : List Image),
        keptFrames ecc' orb' q' t' reference rest'
          = keptFrames ecc orb q t reference rest →
        stack_frames_aligned ecc' orb' q' t' method reference rest' flag
          = stack_frames_aligned ecc orb q t method reference rest flag := by
  refine ⟨?_, ?_, ?_⟩
  · simp only [used_frames, keptFrames, List.length_cons]
    exact Nat.succ_le_succ (List.length_filterMap_le _ _)
  · simp [used_frames, keptFrames]
  · intro ecc' orb' q' t' rest' h
    simp only [stack_frames_aligned, h]

/-- Witness for C3 amended: two runs with different quality functions and
thresholds that keep the same frames return the same composite. -/
theorem C3_amended_composite_only_witness :
    used_frames (fun f => some f) (fun _ => none) (fun _ => 1) 0
        (List.replicate 16 (30 : ℚ)) [List.replicate 16 (30 : ℚ)]
      ≤ [List.replicate 16 (30 : ℚ)].length + 1
    ∧ 1 ≤ used_frames (fun f => some f) (fun _ => none) (fun _ => 1) 0
        (List.replicate 16 (30 : ℚ)) [List.replicate 16 (30 : ℚ)]
    ∧ stack_frames_aligned (fun f => some f) (fun _ => none) (fun _ => 5) 3
        .average (List.replicate 16 (30 : ℚ)) [List.replicate 16 (30 : ℚ)]
        true
      = stack_frames_aligned (fun f => some f) (fun _ => none) (fun _ => 1) 0
        .average (List.replicate 16 (30 : ℚ)) [List.replicate 16 (30 : ℚ)]
        true := by
  obtain ⟨h1, h2, h3⟩ := C3_amended_composite_only (fun f => some f)
    (fun _ => none) (fun _ => 1) 0 .average (List.replicate 16 (30 : ℚ))
    [List.replicate 16 (30 : ℚ)] true
  refine ⟨h1, h2, h3 (fun f => some f) (fun _ => none) (fun _ => 5) 3
    [List.replicate 16 (30 : ℚ)] ?_⟩
  norm_num [keptFrames, alignOrFallback]

/-- C10: in aligned stacking, frame 0 heads the kept-frame list
unconditionally — whatever the alignment strategies, quality function and
quality threshold do — so alignment-failure and quality rejection apply
only to the later frames and the count of frames used is always at least
one. -/
theorem C10_reference_always_included (ecc orb : Image → Option Image)
    (q : Image → ℚ) (threshold : ℚ) (reference : Image)
    (rest : List Image) :
    (keptFrames ecc orb q threshold reference rest).head? = some reference
    ∧ reference ∈ keptFrames ecc orb q threshold reference rest
    ∧ 1 ≤ used_frames ecc orb q threshold reference rest := by
  refine ⟨rfl, List.mem_cons_self _ _, ?_⟩
  simp [used_frames, keptFrames]

end SerPlayer
